import Mathlib

/-!
Shallow embedding of the emigui scroll area
(src/emigui/src/containers/scroll_area.rs).

f32 values are modelled as rationals.  The collaborator interfaces that the
scroll area consumes (state store, input snapshot, interaction register,
style resolver, draw command sink) are modelled explicitly; the interaction
register's arbitration is external to the repository, so it is an oracle
function carried in the `Ui` value that consults and may update the single
process-wide active identity.
-/

namespace Emigui

/-- 2D vector of rationals, modelling the source's `Vec2` (a pair of f32). -/
structure Vec2 where
  x : ℚ
  y : ℚ
deriving DecidableEq

instance : Add Vec2 := ⟨fun a b => ⟨a.x + b.x, a.y + b.y⟩⟩

instance : Sub Vec2 := ⟨fun a b => ⟨a.x - b.x, a.y - b.y⟩⟩

def vec2 (x y : ℚ) : Vec2 := ⟨x, y⟩

@[simp] theorem Vec2.add_x (a b : Vec2) : (a + b).x = a.x + b.x := rfl

@[simp] theorem Vec2.add_y (a b : Vec2) : (a + b).y = a.y + b.y := rfl

@[simp] theorem Vec2.sub_x (a b : Vec2) : (a - b).x = a.x - b.x := rfl

@[simp] theorem Vec2.sub_y (a b : Vec2) : (a - b).y = a.y - b.y := rfl

@[simp] theorem vec2_x (x y : ℚ) : (vec2 x y).x = x := rfl

@[simp] theorem vec2_y (x y : ℚ) : (vec2 x y).y = y := rfl

/-- Axis-aligned rectangle as min and max corners, modelling the source's `Rect`. -/
structure Rect where
  min : Vec2
  max : Vec2
deriving DecidableEq

def Rect.from_min_size (m s : Vec2) : Rect := ⟨m, m + s⟩

def Rect.from_min_max (m M : Vec2) : Rect := ⟨m, M⟩

def Rect.width (r : Rect) : ℚ := r.max.x - r.min.x

def Rect.height (r : Rect) : ℚ := r.max.y - r.min.y

def Rect.size (r : Rect) : Vec2 := ⟨r.width, r.height⟩

def Rect.top (r : Rect) : ℚ := r.min.y

def Rect.bottom (r : Rect) : ℚ := r.max.y

def Rect.left (r : Rect) : ℚ := r.min.x

def Rect.right (r : Rect) : ℚ := r.max.x

/-- Modelled from the spec: pointer-in-rectangle test used by `contains_mouse`
(the `Rect::contains` helper is not part of the given source). -/
def Rect.contains (r : Rect) (p : Vec2) : Bool :=
  decide (r.min.x ≤ p.x ∧ p.x ≤ r.max.x ∧ r.min.y ≤ p.y ∧ p.y ≤ r.max.y)

/-- Modelled from the spec: rectangle intersection (componentwise max of the
min corners, min of the max corners); `Rect::intersect` is not part of the
given source. -/
def Rect.intersect (r s : Rect) : Rect :=
  ⟨⟨Max.max r.min.x s.min.x, Max.max r.min.y s.min.y⟩,
   ⟨Min.min r.max.x s.max.x, Min.min r.max.y s.max.y⟩⟩

/-- Modelled from the spec: grow the rectangle by `a` on every side (shrink
when `a` is negative); `Rect::expand` is not part of the given source. -/
def Rect.expand (r : Rect) (a : ℚ) : Rect :=
  ⟨⟨r.min.x - a, r.min.y - a⟩, ⟨r.max.x + a, r.max.y + a⟩⟩

/-- Modelled from the spec: linear mapping of `x` from the range `[a, b]`
to the range `[c, d]` (the math helper `remap` is not part of the given
source). -/
def remap (x a b c d : ℚ) : ℚ := c + (x - a) / (b - a) * (d - c)

/-- Modelled from the spec: `remap` clamped at the boundaries; per the spec a
zero-length source range returns the target range's lower bound (the math
helper `remap_clamp` is not part of the given source). -/
def remap_clamp (x a b c d : ℚ) : ℚ :=
  if a = b then c else remap (min (max x a) b) a b c d

/-- Widget identity: a root plus a chain of child tags, modelling `Id` and
`Id::with` of the external identity system. -/
inductive Id where
  | root (n : ℕ)
  | sub (parent : Id) (tag : String)
deriving DecidableEq

/-- Persisted scroll state, modelling `State` in scroll_area.rs. -/
structure State where
  offset : Vec2
  show_scroll : Bool
deriving DecidableEq

/-- The derived `Default`: zero offset, scrollbar not shown. -/
def State.default : State := ⟨⟨0, 0⟩, false⟩

/-- Result of an `interact` call (the fields of the external `InteractInfo`
that this core reads or forwards to the style resolver). -/
structure InteractInfo where
  hovered : Bool
  active : Bool
deriving DecidableEq

def InteractInfo.inactive : InteractInfo := ⟨false, false⟩

/-- Modelled from the spec: the persistent key-value store for scroll areas,
as an association list; `get` returns the first binding for the key. -/
def getScrollArea : List (Id × State) → Id → Option State
  | [], _ => none
  | (k, v) :: rest, i => if k = i then some v else getScrollArea rest i

/-- Modelled from the spec: `insert` replaces any existing binding for the key. -/
def insertScrollArea (m : List (Id × State)) (k : Id) (v : State) :
    List (Id × State) :=
  (k, v) :: m.filter (fun kv => !(decide (kv.1 = k)))

/-- The parts of the external `Memory` that scroll_area.rs touches: the
scroll-area store and the process-wide active interaction identity. -/
structure Memory where
  scroll_areas : List (Id × State)
  active_id : Option Id

/-- Per-frame input snapshot (the fields scroll_area.rs reads). -/
structure Input where
  mouse_pos : Option Vec2
  mouse_move : Vec2
  scroll_delta : Vec2

/-- Outline description carried by paint commands. -/
structure Outline where
  width : ℚ
  color : ℕ
deriving DecidableEq

/-- The style fields resolved for one interaction state. -/
structure WidgetStyle where
  fill_color : ℕ
  rect_outline : Option Outline
deriving DecidableEq

/-- The style resolver fields scroll_area.rs uses. -/
structure Style where
  dark_bg_color : ℕ
  interact : InteractInfo → WidgetStyle

/-- A `PaintCmd::Rect` draw command. -/
structure PaintCmd where
  rect : Rect
  corner_radius : ℚ
  fill_color : Option ℕ
  outline : Option Outline
deriving DecidableEq

/-- The `Ui` facilities scroll_area.rs consumes.  `interactFn` is the
interaction-register oracle: given a rectangle, an identity and the current
active identity it returns the interaction info and the (possibly claimed)
new active identity. -/
structure Ui where
  id : Id
  avail : Rect
  clip_rect : Rect
  input : Input
  memory : Memory
  style : Style
  interactFn : Rect → Id → Option Id → InteractInfo × Option Id
  paint_cmds : List PaintCmd
  reserved : List Vec2

/-- Modelled from the spec: identity derivation for children. -/
def Ui.make_child_id (ui : Ui) (tag : String) : Id := ui.id.sub tag

/-- Modelled from the spec: whether the frame's pointer position is over the
rectangle (false when no pointer position is present). -/
def Ui.contains_mouse (ui : Ui) (r : Rect) : Bool :=
  match ui.input.mouse_pos with
  | some p => r.contains p
  | none => false

/-- Modelled from the spec: the interaction register consults the current
process-wide active identity and may claim it. -/
def Ui.interact_rect (ui : Ui) (r : Rect) (i : Id) : InteractInfo × Option Id :=
  ui.interactFn r i ui.memory.active_id

/-- Child layout context handed to the caller.  Its rectangle's vertical
extent is unbounded (`f32::INFINITY` in the source), so only the origin and
the width are modelled, together with the clip rectangle set by `prepare`
and the bounding size measured after the caller added content. -/
structure ContentUi where
  rect_min : Vec2
  rect_width : ℚ
  clip_rect : Rect
  bounding_size : Vec2

/-- The session value produced by `prepare` and consumed by `finish`,
modelling `Prepared` in scroll_area.rs. -/
structure Prepared where
  id : Id
  state : State
  current_scroll_bar_width : ℚ
  always_show_scroll : Bool
  inner_rect : Rect
  content_ui : ContentUi

/-- The `ScrollArea` configuration value. -/
structure ScrollArea where
  max_height : ℚ
  always_show_scroll : Bool
  auto_hide_scroll : Bool

/-- The `Default` impl in scroll_area.rs. -/
def ScrollArea.default : ScrollArea := ⟨200, false, true⟩

/-- `ScrollArea::prepare` (scroll_area.rs lines 57-110). -/
def ScrollArea.prepare (sa : ScrollArea) (ui : Ui) : Prepared :=
  let id := ui.make_child_id "scroll_area"
  let state := (getScrollArea ui.memory.scroll_areas id).getD State.default
  let max_scroll_bar_width : ℚ := 16
  let current_scroll_bar_width :=
    if state.show_scroll || !sa.auto_hide_scroll then max_scroll_bar_width else 0
  let outer_size := vec2 ui.avail.width (min ui.avail.height sa.max_height)
  let inner_size := outer_size - vec2 current_scroll_bar_width 0
  let inner_rect := Rect.from_min_size ui.avail.min inner_size
  let content_clip_rect0 := ui.clip_rect.intersect inner_rect
  let content_clip_rect : Rect :=
    ⟨content_clip_rect0.min,
     ⟨ui.clip_rect.max.x - current_scroll_bar_width, content_clip_rect0.max.y⟩⟩
  { id := id
    state := state
    current_scroll_bar_width := current_scroll_bar_width
    always_show_scroll := sa.always_show_scroll
    inner_rect := inner_rect
    content_ui :=
      { rect_min := inner_rect.min - state.offset
        rect_width := inner_size.x
        clip_rect := content_clip_rect
        bounding_size := vec2 0 0 } }

/-- The scrollbar-interaction step of `finish` (scroll_area.rs lines
184-200): handle drag when the handle interaction is active and the pointer
is within the inner rectangle's vertical bounds, otherwise the track-click
check; returns the new offset and active identity. -/
def barStep (ui : Ui) (rendered : Bool) (mouse_posOpt : Option Vec2)
    (handle_info : InteractInfo) (active2 : Option Id) (interact_id : Id)
    (outer_scroll_rect handle_rect : Rect)
    (top bottom innerH csy y : ℚ) : ℚ × Option Id :=
  if rendered then
    match mouse_posOpt with
    | some mouse_pos =>
      if handle_info.active then
        (if top ≤ mouse_pos.y ∧ mouse_pos.y ≤ bottom then
           y + ui.input.mouse_move.y * csy / innerH
         else y, active2)
      else
        let bgCall := ui.interactFn outer_scroll_rect interact_id active2
        (if bgCall.1.active then
           remap (mouse_pos.y - handle_rect.height / 2) top bottom 0 csy
         else y, bgCall.2)
    | none => (y, active2)
  else (y, active2)

/-- Every intermediate value of one `ScrollArea::finish` run. -/
structure FinishParts where
  content_size : Vec2
  inner_rect : Rect
  outer_rect : Rect
  content_is_too_small : Bool
  content_info : InteractInfo
  active1 : Option Id
  offset_after_drag : ℚ
  wheel_applied : Bool
  offset_after_wheel : ℚ
  show_scroll_this_frame : Bool
  rendered : Bool
  corner_radius : ℚ
  outer_scroll_rect : Rect
  handle_rect : Rect
  handle_info : InteractInfo
  active2 : Option Id
  offset_after_bar : ℚ
  active_id : Option Id
  offset_clamped_in_bar : ℚ
  handle_rect2 : Rect
  cmds : List PaintCmd
  offset_final : ℚ
  final_state : State

/-- `ScrollArea::finish` (scroll_area.rs lines 119-243), as a pure function
from the `Ui` facilities and the session to the trace of every intermediate
value.  The statements below project single fields out of this trace. -/
def ScrollArea.finishParts (ui : Ui) (p : Prepared) : FinishParts :=
  let content_size := p.content_ui.bounding_size
  let inner_rect := Rect.from_min_size p.inner_rect.min
    (vec2 (max p.inner_rect.width content_size.x) p.inner_rect.height)
  let outer_rect := Rect.from_min_size inner_rect.min
    (inner_rect.size + vec2 p.current_scroll_bar_width 0)
  let content_is_too_small := decide (content_size.y > inner_rect.height)
  let dragCall :=
    if content_is_too_small then ui.interact_rect inner_rect (p.id.sub "area")
    else (InteractInfo.inactive, ui.memory.active_id)
  let content_info := dragCall.1
  let active1 := dragCall.2
  let offset_after_drag :=
    if content_is_too_small && content_info.active then
      p.state.offset.y - ui.input.mouse_move.y
    else p.state.offset.y
  let wheel_applied := ui.contains_mouse outer_rect && active1.isNone
  let offset_after_wheel :=
    if wheel_applied then offset_after_drag - ui.input.scroll_delta.y
    else offset_after_drag
  let show_scroll_this_frame := content_is_too_small || p.always_show_scroll
  let rendered := show_scroll_this_frame || p.state.show_scroll
  let left := inner_rect.right + 2
  let right := outer_rect.right
  let corner_radius := (right - left) / 2
  let top := inner_rect.top
  let bottom := inner_rect.bottom
  let outer_scroll_rect :=
    Rect.from_min_max (vec2 left inner_rect.top) (vec2 right inner_rect.bottom)
  let handle_rect := Rect.from_min_max
    (vec2 left (remap_clamp offset_after_wheel 0 content_size.y top bottom))
    (vec2 right
      (remap_clamp (offset_after_wheel + inner_rect.height) 0 content_size.y top bottom))
  let interact_id := p.id.sub "vertical"
  let handleCall :=
    if rendered then ui.interactFn handle_rect interact_id active1
    else (InteractInfo.inactive, active1)
  let handle_info := handleCall.1
  let active2 := handleCall.2
  let barCall := barStep ui rendered ui.input.mouse_pos handle_info active2
    interact_id outer_scroll_rect handle_rect top bottom inner_rect.height
    content_size.y offset_after_wheel
  let offset_after_bar := barCall.1
  let active_id := barCall.2
  let offset_clamped_in_bar :=
    if rendered then min (max offset_after_bar 0) (content_size.y - inner_rect.height)
    else offset_after_bar
  let handle_rect2 := Rect.from_min_max
    (vec2 left (remap_clamp offset_clamped_in_bar 0 content_size.y top bottom))
    (vec2 right
      (remap_clamp (offset_clamped_in_bar + inner_rect.height) 0 content_size.y top bottom))
  let cmds :=
    if rendered then
      [ { rect := outer_scroll_rect
          corner_radius := corner_radius
          fill_color := some ui.style.dark_bg_color
          outline := none },
        { rect := handle_rect2.expand (-2)
          corner_radius := corner_radius
          fill_color := some (ui.style.interact handle_info).fill_color
          outline := (ui.style.interact handle_info).rect_outline } ]
    else ([] : List PaintCmd)
  let offset_final := max (min offset_clamped_in_bar (content_size.y - inner_rect.height)) 0
  let final_state : State :=
    { offset := ⟨p.state.offset.x, offset_final⟩
      show_scroll := show_scroll_this_frame }
  { content_size := content_size
    inner_rect := inner_rect
    outer_rect := outer_rect
    content_is_too_small := content_is_too_small
    content_info := content_info
    active1 := active1
    offset_after_drag := offset_after_drag
    wheel_applied := wheel_applied
    offset_after_wheel := offset_after_wheel
    show_scroll_this_frame := show_scroll_this_frame
    rendered := rendered
    corner_radius := corner_radius
    outer_scroll_rect := outer_scroll_rect
    handle_rect := handle_rect
    handle_info := handle_info
    active2 := active2
    offset_after_bar := offset_after_bar
    active_id := active_id
    offset_clamped_in_bar := offset_clamped_in_bar
    handle_rect2 := handle_rect2
    cmds := cmds
    offset_final := offset_final
    final_state := final_state }

/-- `ScrollArea::finish`'s effect on the `Ui`: append the draw commands,
reserve the outer size, write the state back under the session's identity
and record the final active identity. -/
def ScrollArea.finish (ui : Ui) (p : Prepared) : Ui :=
  let parts := ScrollArea.finishParts ui p
  { ui with
    paint_cmds := ui.paint_cmds ++ parts.cmds
    reserved := ui.reserved ++ [parts.outer_rect.size]
    memory :=
      { scroll_areas := insertScrollArea ui.memory.scroll_areas p.id parts.final_state
        active_id := parts.active_id } }

/-! Projection lemmas: each field of `finishParts` restated in terms of the
other fields, exactly as the source computes it. -/

theorem finishParts_content_size (ui : Ui) (p : Prepared) :
    (ScrollArea.finishParts ui p).content_size = p.content_ui.bounding_size := rfl

theorem finishParts_inner_rect (ui : Ui) (p : Prepared) :
    (ScrollArea.finishParts ui p).inner_rect =
      Rect.from_min_size p.inner_rect.min
        (vec2 (max p.inner_rect.width p.content_ui.bounding_size.x) p.inner_rect.height) := rfl

theorem finishParts_outer_rect (ui : Ui) (p : Prepared) :
    (ScrollArea.finishParts ui p).outer_rect =
      Rect.from_min_size (ScrollArea.finishParts ui p).inner_rect.min
        ((ScrollArea.finishParts ui p).inner_rect.size +
          vec2 p.current_scroll_bar_width 0) := rfl

theorem finishParts_too_small (ui : Ui) (p : Prepared) :
    (ScrollArea.finishParts ui p).content_is_too_small =
      decide ((ScrollArea.finishParts ui p).content_size.y >
        (ScrollArea.finishParts ui p).inner_rect.height) := rfl

theorem finishParts_content_info (ui : Ui) (p : Prepared) :
    (ScrollArea.finishParts ui p).content_info =
      (if (ScrollArea.finishParts ui p).content_is_too_small then
        ui.interact_rect (ScrollArea.finishParts ui p).inner_rect (p.id.sub "area")
       else (InteractInfo.inactive, ui.memory.active_id)).1 := rfl

theorem finishParts_active1 (ui : Ui) (p : Prepared) :
    (ScrollArea.finishParts ui p).active1 =
      (if (ScrollArea.finishParts ui p).content_is_too_small then
        ui.interact_rect (ScrollArea.finishParts ui p).inner_rect (p.id.sub "area")
       else (InteractInfo.inactive, ui.memory.active_id)).2 := rfl

theorem finishParts_offset_after_drag (ui : Ui) (p : Prepared) :
    (ScrollArea.finishParts ui p).offset_after_drag =
      (if (ScrollArea.finishParts ui p).content_is_too_small &&
          (ScrollArea.finishParts ui p).content_info.active then
        p.state.offset.y - ui.input.mouse_move.y
       else p.state.offset.y) := rfl

theorem finishParts_wheel_applied (ui : Ui) (p : Prepared) :
    (ScrollArea.finishParts ui p).wheel_applied =
      (ui.contains_mouse (ScrollArea.finishParts ui p).outer_rect &&
        (ScrollArea.finishParts ui p).active1.isNone) := rfl

theorem finishParts_offset_after_wheel (ui : Ui) (p : Prepared) :
    (ScrollArea.finishParts ui p).offset_after_wheel =
      (if (ScrollArea.finishParts ui p).wheel_applied then
        (ScrollArea.finishParts ui p).offset_after_drag - ui.input.scroll_delta.y
       else (ScrollArea.finishParts ui p).offset_after_drag) := rfl

theorem finishParts_show_this_frame (ui : Ui) (p : Prepared) :
    (ScrollArea.finishParts ui p).show_scroll_this_frame =
      ((ScrollArea.finishParts ui p).content_is_too_small || p.always_show_scroll) := rfl

theorem finishParts_rendered (ui : Ui) (p : Prepared) :
    (ScrollArea.finishParts ui p).rendered =
      ((ScrollArea.finishParts ui p).show_scroll_this_frame || p.state.show_scroll) := rfl

theorem finishParts_corner_radius (ui : Ui) (p : Prepared) :
    (ScrollArea.finishParts ui p).corner_radius =
      ((ScrollArea.finishParts ui p).outer_rect.right -
        ((ScrollArea.finishParts ui p).inner_rect.right + 2)) / 2 := rfl

theorem finishParts_outer_scroll_rect (ui : Ui) (p : Prepared) :
    (ScrollArea.finishParts ui p).outer_scroll_rect =
      Rect.from_min_max
        (vec2 ((ScrollArea.finishParts ui p).inner_rect.right + 2)
          (ScrollArea.finishParts ui p).inner_rect.top)
        (vec2 (ScrollArea.finishParts ui p).outer_rect.right
          (ScrollArea.finishParts ui p).inner_rect.bottom) := rfl

theorem finishParts_handle_rect (ui : Ui) (p : Prepared) :
    (ScrollArea.finishParts ui p).handle_rect =
      Rect.from_min_max
        (vec2 ((ScrollArea.finishParts ui p).inner_rect.right + 2)
          (remap_clamp (ScrollArea.finishParts ui p).offset_after_wheel 0
            (ScrollArea.finishParts ui p).content_size.y
            (ScrollArea.finishParts ui p).inner_rect.top
            (ScrollArea.finishParts ui p).inner_rect.bottom))
        (vec2 (ScrollArea.finishParts ui p).outer_rect.right
          (remap_clamp
            ((ScrollArea.finishParts ui p).offset_after_wheel +
              (ScrollArea.finishParts ui p).inner_rect.height) 0
            (ScrollArea.finishParts ui p).content_size.y
            (ScrollArea.finishParts ui p).inner_rect.top
            (ScrollArea.finishParts ui p).inner_rect.bottom)) := rfl

theorem finishParts_handle_info (ui : Ui) (p : Prepared) :
    (ScrollArea.finishParts ui p).handle_info =
      (if (ScrollArea.finishParts ui p).rendered then
        ui.interactFn (ScrollArea.finishParts ui p).handle_rect (p.id.sub "vertical")
          (ScrollArea.finishParts ui p).active1
       else (InteractInfo.inactive, (ScrollArea.finishParts ui p).active1)).1 := rfl

theorem finishParts_active2 (ui : Ui) (p : Prepared) :
    (ScrollArea.finishParts ui p).active2 =
      (if (ScrollArea.finishParts ui p).rendered then
        ui.interactFn (ScrollArea.finishParts ui p).handle_rect (p.id.sub "vertical")
          (ScrollArea.finishParts ui p).active1
       else (InteractInfo.inactive, (ScrollArea.finishParts ui p).active1)).2 := rfl

theorem finishParts_offset_after_bar (ui : Ui) (p : Prepared) :
    (ScrollArea.finishParts ui p).offset_after_bar =
      (barStep ui (ScrollArea.finishParts ui p).rendered ui.input.mouse_pos
        (ScrollArea.finishParts ui p).handle_info (ScrollArea.finishParts ui p).active2
        (p.id.sub "vertical") (ScrollArea.finishParts ui p).outer_scroll_rect
        (ScrollArea.finishParts ui p).handle_rect
        (ScrollArea.finishParts ui p).inner_rect.top
        (ScrollArea.finishParts ui p).inner_rect.bottom
        (ScrollArea.finishParts ui p).inner_rect.height
        (ScrollArea.finishParts ui p).content_size.y
        (ScrollArea.finishParts ui p).offset_after_wheel).1 := rfl

theorem finishParts_active_id (ui : Ui) (p : Prepared) :
    (ScrollArea.finishParts ui p).active_id =
      (barStep ui (ScrollArea.finishParts ui p).rendered ui.input.mouse_pos
        (ScrollArea.finishParts ui p).handle_info (ScrollArea.finishParts ui p).active2
        (p.id.sub "vertical") (ScrollArea.finishParts ui p).outer_scroll_rect
        (ScrollArea.finishParts ui p).handle_rect
        (ScrollArea.finishParts ui p).inner_rect.top
        (ScrollArea.finishParts ui p).inner_rect.bottom
        (ScrollArea.finishParts ui p).inner_rect.height
        (ScrollArea.finishParts ui p).content_size.y
        (ScrollArea.finishParts ui p).offset_after_wheel).2 := rfl

theorem finishParts_offset_clamped (ui : Ui) (p : Prepared) :
    (ScrollArea.finishParts ui p).offset_clamped_in_bar =
      (if (ScrollArea.finishParts ui p).rendered then
        min (max (ScrollArea.finishParts ui p).offset_after_bar 0)
          ((ScrollArea.finishParts ui p).content_size.y -
            (ScrollArea.finishParts ui p).inner_rect.height)
       else (ScrollArea.finishParts ui p).offset_after_bar) := rfl

theorem finishParts_handle_rect2 (ui : Ui) (p : Prepared) :
    (ScrollArea.finishParts ui p).handle_rect2 =
      Rect.from_min_max
        (vec2 ((ScrollArea.finishParts ui p).inner_rect.right + 2)
          (remap_clamp (ScrollArea.finishParts ui p).offset_clamped_in_bar 0
            (ScrollArea.finishParts ui p).content_size.y
            (ScrollArea.finishParts ui p).inner_rect.top
            (ScrollArea.finishParts ui p).inner_rect.bottom))
        (vec2 (ScrollArea.finishParts ui p).outer_rect.right
          (remap_clamp
            ((ScrollArea.finishParts ui p).offset_clamped_in_bar +
              (ScrollArea.finishParts ui p).inner_rect.height) 0
            (ScrollArea.finishParts ui p).content_size.y
            (ScrollArea.finishParts ui p).inner_rect.top
            (ScrollArea.finishParts ui p).inner_rect.bottom)) := rfl

theorem finishParts_cmds (ui : Ui) (p : Prepared) :
    (ScrollArea.finishParts ui p).cmds =
      (if (ScrollArea.finishParts ui p).rendered then
        [ { rect := (ScrollArea.finishParts ui p).outer_scroll_rect
            corner_radius := (ScrollArea.finishParts ui p).corner_radius
            fill_color := some ui.style.dark_bg_color
            outline := none },
          { rect := (ScrollArea.finishParts ui p).handle_rect2.expand (-2)
            corner_radius := (ScrollArea.finishParts ui p).corner_radius
            fill_color :=
              some (ui.style.interact (ScrollArea.finishParts ui p).handle_info).fill_color
            outline :=
              (ui.style.interact (ScrollArea.finishParts ui p).handle_info).rect_outline } ]
       else ([] : List PaintCmd)) := rfl

theorem finishParts_offset_final (ui : Ui) (p : Prepared) :
    (ScrollArea.finishParts ui p).offset_final =
      max (min (ScrollArea.finishParts ui p).offset_clamped_in_bar
        ((ScrollArea.finishParts ui p).content_size.y -
          (ScrollArea.finishParts ui p).inner_rect.height)) 0 := rfl

theorem finishParts_final_state (ui : Ui) (p : Prepared) :
    (ScrollArea.finishParts ui p).final_state =
      { offset := ⟨p.state.offset.x, (ScrollArea.finishParts ui p).offset_final⟩
        show_scroll := (ScrollArea.finishParts ui p).show_scroll_this_frame } := rfl

/-! Helper lemmas about the interaction steps. -/

/-- With an inert interaction register (nothing reported active, nothing
claimed) the scrollbar interaction step leaves the offset and the active
identity unchanged. -/
theorem barStep_inert (ui : Ui)
    (hOr : ∀ r i a, ui.interactFn r i a = (InteractInfo.inactive, a))
    (rendered : Bool) (mpos : Option Vec2) (active2 : Option Id) (iid : Id)
    (osr hr : Rect) (top bottom innerH csy y : ℚ) :
    barStep ui rendered mpos InteractInfo.inactive active2 iid osr hr
      top bottom innerH csy y = (y, active2) := by
  unfold barStep
  cases rendered
  · simp
  · cases mpos <;> simp [hOr, InteractInfo.inactive]

/-- With an inert interaction register the drag-to-scroll interaction is
never active. -/
theorem finishParts_content_info_inert (ui : Ui) (p : Prepared)
    (hOr : ∀ r i a, ui.interactFn r i a = (InteractInfo.inactive, a)) :
    (ScrollArea.finishParts ui p).content_info = InteractInfo.inactive := by
  rw [finishParts_content_info]
  split <;> simp [Ui.interact_rect, hOr]

/-- With an inert interaction register the active identity is not changed by
the drag-to-scroll interact call. -/
theorem finishParts_active1_inert (ui : Ui) (p : Prepared)
    (hOr : ∀ r i a, ui.interactFn r i a = (InteractInfo.inactive, a)) :
    (ScrollArea.finishParts ui p).active1 = ui.memory.active_id := by
  rw [finishParts_active1]
  split <;> simp [Ui.interact_rect, hOr]

/-- With an inert interaction register the handle interaction is never
active. -/
theorem finishParts_handle_info_inert (ui : Ui) (p : Prepared)
    (hOr : ∀ r i a, ui.interactFn r i a = (InteractInfo.inactive, a)) :
    (ScrollArea.finishParts ui p).handle_info = InteractInfo.inactive := by
  rw [finishParts_handle_info]
  split <;> simp [hOr]

/-- With an inert interaction register and zero wheel delta, no interaction
step changes the offset: the value entering the clamps is the session's
starting offset. -/
theorem finishParts_offset_after_bar_inert (ui : Ui) (p : Prepared)
    (hOr : ∀ r i a, ui.interactFn r i a = (InteractInfo.inactive, a))
    (hscroll : ui.input.scroll_delta.y = 0) :
    (ScrollArea.finishParts ui p).offset_after_bar = p.state.offset.y := by
  have hdrag : (ScrollArea.finishParts ui p).offset_after_drag = p.state.offset.y := by
    rw [finishParts_offset_after_drag, finishParts_content_info_inert ui p hOr]
    simp [InteractInfo.inactive]
  have hwheel : (ScrollArea.finishParts ui p).offset_after_wheel = p.state.offset.y := by
    rw [finishParts_offset_after_wheel, hscroll, hdrag]
    split <;> ring
  rw [finishParts_offset_after_bar, finishParts_handle_info_inert ui p hOr,
    barStep_inert ui hOr, hwheel]

/-- Clamping a value that already satisfies the offset invariant — first the
optional in-block clamp (max with 0, then min with `c`), then the final
clamp (min with `c`, then max with 0) — gives the value back. -/
theorem clamp_fixpoint (r : Bool) (y c : ℚ) (hy0 : 0 ≤ y) (hyc : y ≤ max 0 c) :
    max (min (if r then min (max y 0) c else y) c) 0 = y := by
  have hmax : max y 0 = y := max_eq_left hy0
  rcases le_or_lt 0 c with hc | hc
  · have hyc' : y ≤ c := le_trans hyc (by rw [max_eq_right hc])
    cases r <;> simp [hmax, min_eq_left hyc', max_eq_left hy0]
  · have hy : y = 0 := le_antisymm (le_trans hyc (by rw [max_eq_left hc.le])) hy0
    have hcc : min c c = c := min_self c
    cases r <;>
      simp [hy, hmax, min_eq_right hc.le, max_eq_right hc.le, hcc,
        max_eq_left hc.le, min_self]

/-! Concrete example inputs used by counterexamples and witnesses. -/

/-- An interaction-register oracle that reports a region active exactly when
its identity already holds the process-wide active slot, and never changes
the slot. -/
def holdOracle : Rect → Id → Option Id → InteractInfo × Option Id :=
  fun _ i a => (⟨false, decide (a = some i)⟩, a)

/-- An interaction-register oracle that reports nothing active and claims
nothing. -/
def inertOracle : Rect → Id → Option Id → InteractInfo × Option Id :=
  fun _ _ a => (InteractInfo.inactive, a)

def styleEx : Style :=
  { dark_bg_color := 0
    interact := fun _ => { fill_color := 1, rect_outline := none } }

def idEx : Id := (Id.root 0).sub "scroll_area"

/-- A frame where the pointer is over the outer rectangle, the wheel delta is
50, and the active-interaction slot is held by this scroll area's own
scrollbar identity (the user is dragging the handle without moving the
pointer this frame). -/
def uiC2 : Ui :=
  { id := Id.root 0
    avail := ⟨⟨0, 0⟩, ⟨216, 200⟩⟩
    clip_rect := ⟨⟨0, 0⟩, ⟨1000, 1000⟩⟩
    input := { mouse_pos := some ⟨50, 100⟩, mouse_move := ⟨0, 0⟩, scroll_delta := ⟨0, 50⟩ }
    memory := { scroll_areas := [], active_id := some (idEx.sub "vertical") }
    style := styleEx
    interactFn := holdOracle
    paint_cmds := []
    reserved := [] }

/-- The matching session: content of height 1000 in a 200-high viewport,
starting offset 100. -/
def pC2 : Prepared :=
  { id := idEx
    state := { offset := ⟨0, 100⟩, show_scroll := true }
    current_scroll_bar_width := 16
    always_show_scroll := false
    inner_rect := ⟨⟨0, 0⟩, ⟨200, 200⟩⟩
    content_ui :=
      { rect_min := ⟨0, -100⟩
        rect_width := 200
        clip_rect := ⟨⟨0, 0⟩, ⟨184, 200⟩⟩
        bounding_size := ⟨100, 1000⟩ } }

/-- A frame where the user drags the scrollbar handle down by 10 while the
pointer is inside the inner rectangle's vertical bounds. -/
def uiC3 : Ui :=
  { id := Id.root 0
    avail := ⟨⟨0, 0⟩, ⟨216, 200⟩⟩
    clip_rect := ⟨⟨0, 0⟩, ⟨1000, 1000⟩⟩
    input := { mouse_pos := some ⟨50, 100⟩, mouse_move := ⟨0, 10⟩, scroll_delta := ⟨0, 0⟩ }
    memory := { scroll_areas := [], active_id := some (idEx.sub "vertical") }
    style := styleEx
    interactFn := holdOracle
    paint_cmds := []
    reserved := [] }

/-- The matching session for the handle drag: content of height 1000 in a
200-high viewport, starting offset 100. -/
def pC3 : Prepared :=
  { id := idEx
    state := { offset := ⟨0, 100⟩, show_scroll := true }
    current_scroll_bar_width := 16
    always_show_scroll := false
    inner_rect := ⟨⟨0, 0⟩, ⟨200, 200⟩⟩
    content_ui :=
      { rect_min := ⟨0, -100⟩
        rect_width := 200
        clip_rect := ⟨⟨0, 0⟩, ⟨184, 200⟩⟩
        bounding_size := ⟨100, 1000⟩ } }

/-! The claim theorems. -/

/-- C1: for every Finish call, whatever wheel, drag-to-scroll, handle-drag
and track-click inputs occurred that frame (any input snapshot and any
interaction-oracle behavior) and whatever the starting offset, the state
written back satisfies
`0 ≤ offset.y ≤ max 0 (contentSize.y - innerRect.height)`. -/
theorem c1_offset_invariant (ui : Ui) (p : Prepared) :
    0 ≤ (ScrollArea.finishParts ui p).final_state.offset.y ∧
    (ScrollArea.finishParts ui p).final_state.offset.y ≤
      max 0 ((ScrollArea.finishParts ui p).content_size.y -
        (ScrollArea.finishParts ui p).inner_rect.height) := by
  have h : (ScrollArea.finishParts ui p).final_state.offset.y =
      max (min (ScrollArea.finishParts ui p).offset_clamped_in_bar
        ((ScrollArea.finishParts ui p).content_size.y -
          (ScrollArea.finishParts ui p).inner_rect.height)) 0 := rfl
  rw [h]
  exact ⟨le_max_right _ _,
    max_le (le_trans (min_le_right _ _) (le_max_right _ _)) (le_max_left _ _)⟩

/-- C2: the code's behavior at the failing input.  The pointer is over the
outer rectangle, the wheel delta is 50, and the active-interaction slot is
held by this scroll area's own scrollbar identity (no *other* region holds
it), yet the wheel delta is not subtracted: the offset stays 100 instead of
becoming 100 - 50 (the clamp bounds, 0 and 800, are not involved). -/
theorem c2_wheel_blocked_by_own_interaction :
    uiC2.contains_mouse (ScrollArea.finishParts uiC2 pC2).outer_rect = true ∧
    uiC2.memory.active_id = some (pC2.id.sub "vertical") ∧
    uiC2.input.scroll_delta.y = 50 ∧
    (ScrollArea.finishParts uiC2 pC2).final_state.offset.y = 100 ∧
    (100 : ℚ) ≠ 100 - 50 := by
  refine ⟨?_, rfl, rfl, ?_, by norm_num⟩ <;>
    norm_num [uiC2, pC2, idEx, styleEx, holdOracle, ScrollArea.finishParts, barStep,
      Ui.contains_mouse, Ui.interact_rect, Rect.contains, Rect.from_min_size,
      Rect.from_min_max, Rect.width, Rect.height, Rect.size, Rect.top, Rect.bottom,
      Rect.right, Rect.left, remap, remap_clamp, InteractInfo.inactive]

/-- C3: in Finish, when the scrollbar's interaction identity is the active
interaction via the handle rectangle, the pointer position is present, and
the pointer's vertical position lies within the inner rectangle's vertical
bounds, then `pointerDelta.y * contentSize.y / innerRect.height` is added to
`offset.y`: dragging the handle by `d` pixels when the track height is `L`
and the content height is `C` changes the pre-clamp `offset.y` by
`d * C / L`. -/
theorem c3_handle_drag_scaling (ui : Ui) (p : Prepared) (mp : Vec2)
    (hmp : ui.input.mouse_pos = some mp)
    (hact : (ScrollArea.finishParts ui p).handle_info.active = true)
    (htop : (ScrollArea.finishParts ui p).inner_rect.top ≤ mp.y)
    (hbot : mp.y ≤ (ScrollArea.finishParts ui p).inner_rect.bottom) :
    (ScrollArea.finishParts ui p).offset_after_bar =
      (ScrollArea.finishParts ui p).offset_after_wheel +
        ui.input.mouse_move.y * (ScrollArea.finishParts ui p).content_size.y /
          (ScrollArea.finishParts ui p).inner_rect.height := by
  have hrend : (ScrollArea.finishParts ui p).rendered = true := by
    cases hb : (ScrollArea.finishParts ui p).rendered
    · exfalso
      have hh := finishParts_handle_info ui p
      rw [hb] at hh
      simp only [Bool.false_eq_true, if_false] at hh
      rw [hh] at hact
      simp [InteractInfo.inactive] at hact
    · rfl
  rw [finishParts_offset_after_bar, hrend, hmp]
  simp [barStep, hact, htop, hbot]

/-- Witness for C3: in the concrete handle-drag frame (`d = 10`, `C = 1000`,
`L = 200`) the pre-clamp offset changes by `d * C / L`. -/
theorem c3_handle_drag_scaling_witness :
    (ScrollArea.finishParts uiC3 pC3).offset_after_bar =
      (ScrollArea.finishParts uiC3 pC3).offset_after_wheel +
        uiC3.input.mouse_move.y * (ScrollArea.finishParts uiC3 pC3).content_size.y /
          (ScrollArea.finishParts uiC3 pC3).inner_rect.height :=
  by
  have h1 : (ScrollArea.finishParts uiC3 pC3).active1 = some (idEx.sub "vertical") := by
    rw [finishParts_active1]
    split <;> simp [Ui.interact_rect, holdOracle, uiC3]
  have h2 : (ScrollArea.finishParts uiC3 pC3).rendered = true := by
    rw [finishParts_rendered]
    simp [pC3]
  have hact : (ScrollArea.finishParts uiC3 pC3).handle_info.active = true := by
    rw [finishParts_handle_info, h2, h1]
    simp [uiC3, holdOracle, pC3, idEx]
  have htop : (ScrollArea.finishParts uiC3 pC3).inner_rect.top ≤ (100 : ℚ) := by
    rw [finishParts_inner_rect]
    norm_num [pC3, Rect.from_min_size, Rect.top]
  have hbot : (100 : ℚ) ≤ (ScrollArea.finishParts uiC3 pC3).inner_rect.bottom := by
    rw [finishParts_inner_rect]
    norm_num [pC3, Rect.from_min_size, Rect.bottom, Rect.height, Rect.width]
  exact c3_handle_drag_scaling uiC3 pC3 ⟨50, 100⟩ rfl hact htop hbot

/-- C7: calling Finish twice with identical inputs — the same measured
content size and rectangles, an interaction register that reports no active
claim, and zero wheel delta — leaves the state unchanged on the second
call: the state written by the second Finish (whose session carries the
state written by the first) equals the state written by the first. -/
theorem c7_finish_idempotent (ui : Ui) (p : Prepared)
    (hOr : ∀ r i a, ui.interactFn r i a = (InteractInfo.inactive, a))
    (hscroll : ui.input.scroll_delta.y = 0) :
    (ScrollArea.finishParts ui
        { p with state := (ScrollArea.finishParts ui p).final_state }).final_state =
      (ScrollArea.finishParts ui p).final_state := by
  have hpy : ({ p with state := (ScrollArea.finishParts ui p).final_state } :
      Prepared).state.offset.y = (ScrollArea.finishParts ui p).offset_final := rfl
  have hc : (ScrollArea.finishParts ui
        { p with state := (ScrollArea.finishParts ui p).final_state }).content_size.y -
      (ScrollArea.finishParts ui
        { p with state := (ScrollArea.finishParts ui p).final_state }).inner_rect.height =
      (ScrollArea.finishParts ui p).content_size.y -
        (ScrollArea.finishParts ui p).inner_rect.height := rfl
  have hyfix : (ScrollArea.finishParts ui
      { p with state := (ScrollArea.finishParts ui p).final_state }).offset_final =
      (ScrollArea.finishParts ui p).offset_final := by
    rw [finishParts_offset_final ui
        { p with state := (ScrollArea.finishParts ui p).final_state },
      finishParts_offset_clamped ui
        { p with state := (ScrollArea.finishParts ui p).final_state },
      finishParts_offset_after_bar_inert ui
        { p with state := (ScrollArea.finishParts ui p).final_state } hOr hscroll,
      hpy, hc, finishParts_offset_final ui p]
    exact clamp_fixpoint _ _ _ (le_max_right _ _)
      (max_le (le_trans (min_le_right _ _) (le_max_right _ _)) (le_max_left _ _))
  rw [finishParts_final_state ui
      { p with state := (ScrollArea.finishParts ui p).final_state },
    hyfix]
  exact (finishParts_final_state ui p).symm

/-- A frame with an inert interaction register and zero wheel delta. -/
def uiC7 : Ui :=
  { id := Id.root 0
    avail := ⟨⟨0, 0⟩, ⟨216, 200⟩⟩
    clip_rect := ⟨⟨0, 0⟩, ⟨1000, 1000⟩⟩
    input := { mouse_pos := some ⟨50, 100⟩, mouse_move := ⟨0, 10⟩, scroll_delta := ⟨0, 0⟩ }
    memory := { scroll_areas := [], active_id := none }
    style := styleEx
    interactFn := inertOracle
    paint_cmds := []
    reserved := [] }

/-- Witness for C7 on a concrete no-interaction frame. -/
theorem c7_finish_idempotent_witness :
    (ScrollArea.finishParts uiC7
        { pC3 with state := (ScrollArea.finishParts uiC7 pC3).final_state }).final_state =
      (ScrollArea.finishParts uiC7 pC3).final_state :=
  c7_finish_idempotent uiC7 pC3 (fun _ _ _ => rfl) rfl

/-- A session whose content height exactly equals the inner height, with the
scrollbar visible last frame (the one-frame grace period applies). -/
def pC4 : Prepared :=
  { id := idEx
    state := { offset := ⟨0, 0⟩, show_scroll := true }
    current_scroll_bar_width := 16
    always_show_scroll := false
    inner_rect := ⟨⟨0, 0⟩, ⟨200, 200⟩⟩
    content_ui :=
      { rect_min := ⟨0, 0⟩
        rect_width := 200
        clip_rect := ⟨⟨0, 0⟩, ⟨184, 200⟩⟩
        bounding_size := ⟨100, 200⟩ } }

/-- Like `pC4` but with the scrollbar not visible last frame. -/
def pC4w : Prepared :=
  { pC4 with state := { offset := ⟨0, 0⟩, show_scroll := false } }

/-- C4 counterexample: with `contentSize.y = innerRect.height`,
`alwaysShowScrollbar = false` and the scrollbar visible last frame,
`contentTooSmall` and `showThisFrame` are false and yet scrollbar draw
commands are emitted this frame (the one-frame grace period), refuting the
claim's "no scrollbar draw commands are emitted that frame". -/
theorem c4_grace_frame_still_draws :
    (ScrollArea.finishParts uiC7 pC4).content_size.y =
      (ScrollArea.finishParts uiC7 pC4).inner_rect.height ∧
    pC4.always_show_scroll = false ∧
    (ScrollArea.finishParts uiC7 pC4).content_is_too_small = false ∧
    (ScrollArea.finishParts uiC7 pC4).show_scroll_this_frame = false ∧
    (ScrollArea.finishParts uiC7 pC4).cmds ≠ [] := by
  have hnot : (ScrollArea.finishParts uiC7 pC4).content_is_too_small = false := by
    rw [finishParts_too_small, finishParts_content_size, finishParts_inner_rect]
    norm_num [pC4, Rect.from_min_size, Rect.height]
  have hshow : (ScrollArea.finishParts uiC7 pC4).show_scroll_this_frame = false := by
    rw [finishParts_show_this_frame, hnot]
    rfl
  have hrend : (ScrollArea.finishParts uiC7 pC4).rendered = true := by
    rw [finishParts_rendered, hshow]
    rfl
  refine ⟨?_, rfl, hnot, hshow, ?_⟩
  · rw [finishParts_content_size, finishParts_inner_rect]
    norm_num [pC4, Rect.from_min_size, Rect.height]
  · rw [finishParts_cmds, hrend]
    simp

/-- C4 (amended): if `contentSize.y = innerRect.height` then
`contentTooSmall` is false; with `alwaysShowScrollbar = false` the frame's
`showThisFrame` is false, and if additionally the scrollbar was not visible
last frame no scrollbar draw commands are emitted. -/
theorem c4_equal_heights_no_scrollbar (ui : Ui) (p : Prepared)
    (heq : (ScrollArea.finishParts ui p).content_size.y =
      (ScrollArea.finishParts ui p).inner_rect.height) :
    (ScrollArea.finishParts ui p).content_is_too_small = false ∧
    (p.always_show_scroll = false →
      (ScrollArea.finishParts ui p).show_scroll_this_frame = false) ∧
    (p.always_show_scroll = false → p.state.show_scroll = false →
      (ScrollArea.finishParts ui p).cmds = []) := by
  have hnot : (ScrollArea.finishParts ui p).content_is_too_small = false := by
    rw [finishParts_too_small, heq]
    simp
  refine ⟨hnot, ?_, ?_⟩
  · intro ha
    rw [finishParts_show_this_frame, hnot, ha]
    rfl
  · intro ha hs
    have hsh : (ScrollArea.finishParts ui p).show_scroll_this_frame = false := by
      rw [finishParts_show_this_frame, hnot, ha]
      rfl
    have hrend : (ScrollArea.finishParts ui p).rendered = false := by
      rw [finishParts_rendered, hsh, hs]
      rfl
    rw [finishParts_cmds, hrend]
    simp

/-- Witness for the amended C4 on a concrete equal-heights frame with the
scrollbar hidden last frame. -/
theorem c4_equal_heights_no_scrollbar_witness :
    (ScrollArea.finishParts uiC7 pC4w).content_is_too_small = false ∧
    (pC4w.always_show_scroll = false →
      (ScrollArea.finishParts uiC7 pC4w).show_scroll_this_frame = false) ∧
    (pC4w.always_show_scroll = false → pC4w.state.show_scroll = false →
      (ScrollArea.finishParts uiC7 pC4w).cmds = []) :=
  c4_equal_heights_no_scrollbar uiC7 pC4w
    (by
      rw [finishParts_content_size, finishParts_inner_rect]
      norm_num [pC4w, pC4, Rect.from_min_size, Rect.height])

/-- C5 counterexample: at a concrete rendering frame with scroll-bar width
16 the corner radius emitted for both draw commands is 7, not
`16 / 2 = 8`. -/
theorem c5_corner_radius_not_half_width :
    pC3.current_scroll_bar_width = 16 ∧
    (ScrollArea.finishParts uiC7 pC3).rendered = true ∧
    (ScrollArea.finishParts uiC7 pC3).cmds.map PaintCmd.corner_radius = [7, 7] ∧
    ((7 : ℚ) ≠ 16 / 2) := by
  have hrend : (ScrollArea.finishParts uiC7 pC3).rendered = true := by
    rw [finishParts_rendered]
    simp [pC3]
  have hcr : (ScrollArea.finishParts uiC7 pC3).corner_radius = 7 := by
    rw [finishParts_corner_radius, finishParts_outer_rect, finishParts_inner_rect]
    norm_num [pC3, Rect.right, Rect.from_min_size, Rect.size, Rect.width, Rect.height]
  refine ⟨rfl, hrend, ?_, by norm_num⟩
  rw [finishParts_cmds, hrend]
  simp [hcr]

/-- C5 (amended): whenever Finish renders the scrollbar, the corner radius
used for both the track and the handle draw commands equals
`(scrollbarWidth - 2) / 2` — half the gap between the track's left edge
(inner right + 2) and the outer right edge — i.e. 7 when the width chosen
at Prepare is 16. -/
theorem c5_corner_radius (ui : Ui) (p : Prepared)
    (hrend : (ScrollArea.finishParts ui p).rendered = true) :
    (ScrollArea.finishParts ui p).cmds.map PaintCmd.corner_radius =
      [(p.current_scroll_bar_width - 2) / 2, (p.current_scroll_bar_width - 2) / 2] := by
  have hcr : (ScrollArea.finishParts ui p).corner_radius =
      (p.current_scroll_bar_width - 2) / 2 := by
    rw [finishParts_corner_radius, finishParts_outer_rect, finishParts_inner_rect]
    simp only [Rect.right, Rect.from_min_size, Rect.size, Rect.width, Rect.height,
      Vec2.add_x, vec2_x]
    ring
  rw [finishParts_cmds, hrend]
  simp [hcr]

/-- Witness for the amended C5 at the concrete rendering frame. -/
theorem c5_corner_radius_witness :
    (ScrollArea.finishParts uiC7 pC3).cmds.map PaintCmd.corner_radius =
      [(pC3.current_scroll_bar_width - 2) / 2, (pC3.current_scroll_bar_width - 2) / 2] :=
  c5_corner_radius uiC7 pC3 (by rw [finishParts_rendered]; simp [pC3])

/-- A configuration that never auto-hides the scrollbar, so the width is 16
on the first frame. -/
def sa6 : ScrollArea := ⟨200, false, false⟩

/-- A frame whose available rectangle is narrower than the parent clip
rectangle. -/
def ui6 : Ui :=
  { id := Id.root 0
    avail := ⟨⟨0, 0⟩, ⟨50, 100⟩⟩
    clip_rect := ⟨⟨0, 0⟩, ⟨100, 100⟩⟩
    input := { mouse_pos := none, mouse_move := ⟨0, 0⟩, scroll_delta := ⟨0, 0⟩ }
    memory := { scroll_areas := [], active_id := none }
    style := styleEx
    interactFn := inertOracle
    paint_cmds := []
    reserved := [] }

/-- C6 counterexample: at a concrete Prepare the child clip rectangle's
`max.x` is the parent clip's `max.x` minus the scrollbar width (84), not the
intersection's `max.x` minus the scrollbar width (18). -/
theorem c6_clip_not_from_intersection :
    (sa6.prepare ui6).content_ui.clip_rect.max.x = 84 ∧
    (ui6.clip_rect.intersect (sa6.prepare ui6).inner_rect).max.x -
      (sa6.prepare ui6).current_scroll_bar_width = 18 ∧
    ((84 : ℚ) ≠ 18) := by
  refine ⟨?_, ?_, by norm_num⟩ <;>
    norm_num [sa6, ui6, ScrollArea.prepare, Ui.make_child_id, getScrollArea,
      State.default, Rect.intersect, Rect.from_min_size, Rect.width, Rect.height,
      vec2, min_def, max_def]

/-- C6 (amended): Prepare sets the child clip rectangle to the intersection
of the parent's clip rectangle with the inner rectangle, except that its
`max.x` is the **parent clip rectangle's** `max.x` minus the scroll-bar
width; the other three edges are those of the intersection. -/
theorem c6_child_clip_rect (sa : ScrollArea) (ui : Ui) :
    (sa.prepare ui).content_ui.clip_rect.min =
      (ui.clip_rect.intersect (sa.prepare ui).inner_rect).min ∧
    (sa.prepare ui).content_ui.clip_rect.max.y =
      (ui.clip_rect.intersect (sa.prepare ui).inner_rect).max.y ∧
    (sa.prepare ui).content_ui.clip_rect.max.x =
      ui.clip_rect.max.x - (sa.prepare ui).current_scroll_bar_width :=
  ⟨rfl, rfl, rfl⟩

/-- C8: with zero-height content the content-space to track-space remap
returns the lower bound of the target range (the track's top edge), so both
handle rectangles computed in Finish are well defined, with no
division-by-zero artifact. -/
theorem c8_zero_content_remap (ui : Ui) (p : Prepared)
    (h0 : p.content_ui.bounding_size.y = 0) :
    (ScrollArea.finishParts ui p).handle_rect.min.y =
      (ScrollArea.finishParts ui p).inner_rect.top ∧
    (ScrollArea.finishParts ui p).handle_rect.max.y =
      (ScrollArea.finishParts ui p).inner_rect.top ∧
    (ScrollArea.finishParts ui p).handle_rect2.min.y =
      (ScrollArea.finishParts ui p).inner_rect.top ∧
    (ScrollArea.finishParts ui p).handle_rect2.max.y =
      (ScrollArea.finishParts ui p).inner_rect.top := by
  have hcs : (ScrollArea.finishParts ui p).content_size.y = 0 := h0
  refine ⟨?_, ?_, ?_, ?_⟩
  · rw [finishParts_handle_rect, hcs]
    simp [Rect.from_min_max, remap_clamp]
  · rw [finishParts_handle_rect, hcs]
    simp [Rect.from_min_max, remap_clamp]
  · rw [finishParts_handle_rect2, hcs]
    simp [Rect.from_min_max, remap_clamp]
  · rw [finishParts_handle_rect2, hcs]
    simp [Rect.from_min_max, remap_clamp]

/-- A session with zero-height content. -/
def pC8 : Prepared :=
  { pC3 with
    content_ui :=
      { rect_min := ⟨0, 0⟩
        rect_width := 200
        clip_rect := ⟨⟨0, 0⟩, ⟨184, 200⟩⟩
        bounding_size := ⟨100, 0⟩ } }

/-- Witness for C8 at a concrete zero-height-content frame. -/
theorem c8_zero_content_remap_witness :
    (ScrollArea.finishParts uiC7 pC8).handle_rect.min.y =
      (ScrollArea.finishParts uiC7 pC8).inner_rect.top ∧
    (ScrollArea.finishParts uiC7 pC8).handle_rect.max.y =
      (ScrollArea.finishParts uiC7 pC8).inner_rect.top ∧
    (ScrollArea.finishParts uiC7 pC8).handle_rect2.min.y =
      (ScrollArea.finishParts uiC7 pC8).inner_rect.top ∧
    (ScrollArea.finishParts uiC7 pC8).handle_rect2.max.y =
      (ScrollArea.finishParts uiC7 pC8).inner_rect.top :=
  c8_zero_content_remap uiC7 pC8 rfl

/-- C9: the state Finish inserts into the store under the session's identity
is exactly what the next Prepare reads back for that identity, provided the
next frame's Ui carries the memory Finish produced (no intervening
mutation) and derives the same child identity. -/
theorem c9_store_roundtrip (sa : ScrollArea) (ui ui2 : Ui) (p : Prepared)
    (hmem : ui2.memory = (ScrollArea.finish ui p).memory)
    (hid : ui2.make_child_id "scroll_area" = p.id) :
    (sa.prepare ui2).state = (ScrollArea.finishParts ui p).final_state := by
  have hget : getScrollArea (insertScrollArea ui.memory.scroll_areas p.id
      (ScrollArea.finishParts ui p).final_state) p.id =
      some ((ScrollArea.finishParts ui p).final_state) := by
    simp [getScrollArea, insertScrollArea]
  have hstate : (sa.prepare ui2).state =
      (getScrollArea ui2.memory.scroll_areas (ui2.make_child_id "scroll_area")).getD
        State.default := rfl
  have hmem2 : (ScrollArea.finish ui p).memory.scroll_areas =
      insertScrollArea ui.memory.scroll_areas p.id
        (ScrollArea.finishParts ui p).final_state := rfl
  rw [hstate, hmem, hid, hmem2, hget]
  rfl

/-- Witness for C9 on a concrete frame pair. -/
theorem c9_store_roundtrip_witness :
    (ScrollArea.default.prepare
        { uiC7 with memory := (ScrollArea.finish uiC7 pC3).memory }).state =
      (ScrollArea.finishParts uiC7 pC3).final_state :=
  c9_store_roundtrip ScrollArea.default uiC7
    { uiC7 with memory := (ScrollArea.finish uiC7 pC3).memory } pC3 rfl rfl

/-- C10: neither Prepare nor Finish modifies the horizontal component of the
persisted offset: whatever bounding size the caller's content produced and
whatever the Finish-time input snapshot, the `offset.x` Finish writes back
equals the `offset.x` Prepare read from the store. -/
theorem c10_offset_x_untouched (sa : ScrollArea) (ui uiF : Ui) (bs : Vec2) :
    (ScrollArea.finishParts uiF
        { sa.prepare ui with
          content_ui := { (sa.prepare ui).content_ui with bounding_size := bs } }).final_state.offset.x
      = (sa.prepare ui).state.offset.x ∧
    (sa.prepare ui).state =
      (getScrollArea ui.memory.scroll_areas (ui.make_child_id "scroll_area")).getD
        State.default :=
  ⟨rfl, rfl⟩

end Emigui
